import Mathlib

/-!
Verification of the mcp-openai server's core logic: pricing and cost
calculation (src/pricing.ts), the cost ledger (src/cost-tracker.ts), the
error classifier (src/types.ts), parameter validation in the text provider
(src/providers/text-provider.ts), the retry executor (src/retry.ts) and the
deep-research job lifecycle controller
(src/providers/deep-research-provider.ts).

Conventions of the embedding:
* JavaScript numbers used for money are modelled as exact rationals;
  `Math.round(v * 1e6) / 1e6` becomes rounding on the rationals.
* Remote calls are modelled by supplying the sequence of outcomes the remote
  would produce; the wall clock in the poll loop advances by one poll
  interval per iteration (the code sleeps `pollIntervalMs` between polls and
  recomputes `elapsed` at the top of each iteration).
* Thrown JavaScript errors are modelled as `Except.error` carrying the
  error's message string.
-/

-- ============================================================================
-- Pricing (src/pricing.ts)
-- ============================================================================

/-- USD per one million tokens, `TokenPricing` of src/pricing.ts. -/
structure TokenPricing where
  input : ℚ
  output : ℚ
deriving DecidableEq, Repr

/-- The `CostInfo` record of src/pricing.ts. -/
structure CostInfo where
  inputCost : ℚ
  outputCost : ℚ
  totalCost : ℚ
  currency : String
  estimated : Bool
deriving DecidableEq, Repr

/-- The static price table `OPENAI_PRICING` of src/pricing.ts, in source
    order, as an association list keyed by model identifier. -/
def OPENAI_PRICING : List (String × TokenPricing) :=
  [(("gpt-5.2"), ⟨1.75, 14.0⟩),
   (("gpt-5.2-pro"), ⟨21.0, 168.0⟩),
   (("gpt-5.2-chat-latest"), ⟨1.75, 14.0⟩),
   (("o3-deep-research"), ⟨10.0, 40.0⟩),
   (("o4-mini-deep-research"), ⟨2.0, 8.0⟩)]

/-- `DEFAULT_PRICING` of src/pricing.ts: fallback for unknown models. -/
def DEFAULT_PRICING : TokenPricing := ⟨21.0, 168.0⟩

/-- `roundToMicro` of src/pricing.ts: `Math.round(value * 1_000_000) / 1_000_000`. -/
def roundToMicro (value : ℚ) : ℚ :=
  ((round (value * 1000000) : ℤ) : ℚ) / 1000000

/-- `calculateCost` of src/pricing.ts. -/
def calculateCost (model : String) (promptTokens completionTokens : Nat) : CostInfo :=
  let pricing := List.lookup model OPENAI_PRICING
  let estimated := pricing.isNone
  let effectivePricing := pricing.getD DEFAULT_PRICING
  let inputCost := ((promptTokens : ℚ) / 1000000) * effectivePricing.input
  let outputCost := ((completionTokens : ℚ) / 1000000) * effectivePricing.output
  let totalCost := inputCost + outputCost
  ⟨roundToMicro inputCost, roundToMicro outputCost, roundToMicro totalCost,
   ("USD"), estimated⟩

-- ============================================================================
-- Cost tracker (src/cost-tracker.ts)
-- ============================================================================

/-- The `CostEntry` record of src/cost-tracker.ts. -/
structure CostEntry where
  timestamp : String
  model : String
  operation : String
  inputCost : ℚ
  outputCost : ℚ
  totalCost : ℚ
  estimated : Bool
  promptTokens : Option Nat
  completionTokens : Option Nat
deriving DecidableEq, Repr

/-- The `CostSummary` record of src/cost-tracker.ts.  `since` is `none` when
    the ledger is empty (the source substitutes the current time there). -/
structure CostSummary where
  totalCost : ℚ
  byModel : List (String × ℚ)
  byOperation : List (String × ℚ)
  callCount : Nat
  estimatedCosts : ℚ
  since : Option String
deriving DecidableEq, Repr

/-- State of the `CostTracker` class: the in-memory `entries` array and the
    durable costs file (`none` when file persistence is disabled), modelled
    as the list of entries serialized to it, one per line. -/
structure CostTracker where
  entries : List CostEntry
  costsFile : Option (List CostEntry)
deriving DecidableEq, Repr

/-- `byModel[k] = (byModel[k] || 0) + v` on a JavaScript object whose keys
    keep insertion order, as an association-list update. -/
def bumpKey (l : List (String × ℚ)) (k : String) (v : ℚ) : List (String × ℚ) :=
  match l with
  | [] => [(k, v)]
  | (k0, v0) :: rest =>
      if k0 = k then (k0, v0 + v) :: rest else (k0, v0) :: bumpKey rest k v

/-- `CostTracker.trackCost`: append in memory and, when the costs file is
    configured, append one serialized line to it. -/
def CostTracker.trackCost (s : CostTracker) (entry : CostEntry) : CostTracker :=
  ⟨s.entries ++ [entry], s.costsFile.map (fun f => f ++ [entry])⟩

/-- One step of the aggregation loop of `CostTracker.getSummary`: running
    total, per-model buckets, per-operation buckets and the estimated-cost
    total. -/
def summarizeStep (acc : ℚ × List (String × ℚ) × List (String × ℚ) × ℚ)
    (entry : CostEntry) : ℚ × List (String × ℚ) × List (String × ℚ) × ℚ :=
  (acc.1 + entry.totalCost,
   bumpKey acc.2.1 entry.model entry.totalCost,
   bumpKey acc.2.2.1 entry.operation entry.totalCost,
   acc.2.2.2 + (if entry.estimated then entry.totalCost else 0))

/-- `CostTracker.getSummary` of src/cost-tracker.ts: the `for` loop over the
    entries in order, then every aggregate rounded to micro-dollars. -/
def CostTracker.getSummary (s : CostTracker) : CostSummary :=
  let acc := s.entries.foldl summarizeStep (0, [], [], 0)
  ⟨roundToMicro acc.1,
   acc.2.1.map (fun p => (p.1, roundToMicro p.2)),
   acc.2.2.1.map (fun p => (p.1, roundToMicro p.2)),
   s.entries.length,
   roundToMicro acc.2.2.2,
   (s.entries.head?).map CostEntry.timestamp⟩

/-- `CostTracker.reset` of src/cost-tracker.ts: `this.entries = []` and
    nothing else. -/
def CostTracker.reset (s : CostTracker) : CostTracker :=
  ⟨[], s.costsFile⟩

-- ============================================================================
-- Error classifier (src/types.ts, categorizeError)
-- ============================================================================

/-- The `ErrorCategory` union of src/types.ts. -/
inductive ErrorCategory where
  | AUTH_ERROR
  | RATE_LIMIT
  | CONTENT_BLOCKED
  | SAFETY_BLOCK
  | TIMEOUT
  | API_ERROR
  | VALIDATION_ERROR
deriving DecidableEq, Repr

/-- A raw failure as seen by `categorizeError`: the error's message string
    and the HTTP status (`error.status || error.statusCode`), if any. -/
structure RawFailure where
  message : String
  status : Option Nat
deriving DecidableEq, Repr

/-- Whether `p` occurs as a contiguous run inside `m`, by checking `p`
    against every tail of `m`. -/
def charListContains (p : List Char) : List Char → Bool
  | [] => List.isPrefixOf p []
  | c :: rest => List.isPrefixOf p (c :: rest) || charListContains p rest

/-- JavaScript `m.includes(p)`: case-sensitive substring containment. -/
def strIncludes (m p : String) : Bool :=
  charListContains p.toList m.toList

/-- JavaScript `m.startsWith(p)` on the characters of the strings. -/
def strStartsWith (m p : String) : Bool :=
  List.isPrefixOf p.toList m.toList

/-- The condition of the first rule of `categorizeError` (authentication). -/
def authSignal (e : RawFailure) : Bool :=
  e.status = some 401 || strIncludes e.message ("API key") ||
    strIncludes e.message ("unauthorized") ||
    strIncludes e.message ("Incorrect API key")

/-- The condition of the second rule of `categorizeError` (rate/quota). -/
def rateSignal (e : RawFailure) : Bool :=
  e.status = some 429 || strIncludes e.message ("rate") ||
    strIncludes e.message ("quota") ||
    strIncludes e.message ("too many requests")

/-- The condition of the third rule of `categorizeError` (safety/moderation). -/
def safetySignal (e : RawFailure) : Bool :=
  strIncludes e.message ("safety") || strIncludes e.message ("content_policy")

/-- The condition of the fourth rule of `categorizeError` (content policy). -/
def contentSignal (e : RawFailure) : Bool :=
  strIncludes e.message ("blocked") || strIncludes e.message ("content policy") ||
    strIncludes e.message ("moderation")

/-- The condition of the fifth rule of `categorizeError` (deadline exceeded). -/
def timeoutSignal (e : RawFailure) : Bool :=
  strIncludes e.message ("TIMEOUT") || strIncludes e.message ("timed out")

/-- `categorizeError` of src/types.ts, returning the `MCPError`'s category
    and message. -/
def categorizeError (e : RawFailure) : ErrorCategory × String :=
  if authSignal e then
    (ErrorCategory.AUTH_ERROR, ("Invalid or missing OpenAI API key"))
  else if rateSignal e then
    (ErrorCategory.RATE_LIMIT,
     ("OpenAI API rate limit or quota exceeded. Please wait and retry."))
  else if safetySignal e then
    (ErrorCategory.SAFETY_BLOCK, ("Content was blocked by OpenAI safety filters"))
  else if contentSignal e then
    (ErrorCategory.CONTENT_BLOCKED, ("Request blocked due to content policy"))
  else if timeoutSignal e then
    (ErrorCategory.TIMEOUT, e.message)
  else
    (ErrorCategory.API_ERROR, e.message)

/-- The classifier's rules as an ordered list, for stating first-match
    semantics: each rule pairs its condition with the category it yields. -/
def classifierRules : List ((RawFailure → Bool) × ErrorCategory) :=
  [(authSignal, ErrorCategory.AUTH_ERROR),
   (rateSignal, ErrorCategory.RATE_LIMIT),
   (safetySignal, ErrorCategory.SAFETY_BLOCK),
   (contentSignal, ErrorCategory.CONTENT_BLOCKED),
   (timeoutSignal, ErrorCategory.TIMEOUT)]

/-- First-match evaluation of an ordered rule list, defaulting to
    `API_ERROR` when no rule matches. -/
def firstMatchCategory (e : RawFailure) : ErrorCategory :=
  ((classifierRules.find? (fun r => r.1 e)).map (fun r => r.2)).getD
    ErrorCategory.API_ERROR

-- ============================================================================
-- Text provider validation and request building (src/providers/text-provider.ts)
-- ============================================================================

/-- `PRO_REASONING_EFFORTS` of src/types.ts. -/
def PRO_REASONING_EFFORTS : List String := [("medium"), ("high"), ("xhigh")]

/-- `isValidProReasoningEffort` of src/types.ts. -/
def isValidProReasoningEffort (effort : String) : Bool :=
  PRO_REASONING_EFFORTS.contains effort

/-- `STRUCTURED_OUTPUT_MODELS` of src/types.ts. -/
def STRUCTURED_OUTPUT_MODELS : List String := [("gpt-5.2"), ("gpt-5.2-chat-latest")]

/-- `supportsStructuredOutput` of src/types.ts. -/
def supportsStructuredOutput (model : String) : Bool :=
  STRUCTURED_OUTPUT_MODELS.contains model

/-- `MODEL_IDS` of src/types.ts. -/
def MODEL_IDS : List (String × String) :=
  [(("gpt-5.2"), ("gpt-5.2")),
   (("gpt-5.2-pro"), ("gpt-5.2-pro")),
   (("gpt-5.2-chat-latest"), ("gpt-5.2-chat-latest")),
   (("o3-deep-research"), ("o3-deep-research")),
   (("o4-mini-deep-research"), ("o4-mini-deep-research"))]

/-- `TextGenerateOptions` of src/types.ts, restricted to the fields the
    generation path reads.  `jsonSchema` keeps only the schema's name and
    strict flag (its body is an opaque JSON blob). -/
structure TextGenerateOptions where
  prompt : String
  systemPrompt : Option String
  model : Option String
  reasoningEffort : Option String
  verbosity : Option String
  reasoningSummary : Option String
  maxOutputTokens : Option Nat
  temperature : Option ℚ
  jsonSchema : Option (String × Bool)
deriving DecidableEq, Repr

/-- The remote request built by `generate` after validation: the
    `requestOptions` object sent to `client.responses.create`. -/
structure BuiltRequest where
  model : String
  instructionSegment : Option String
  userSegment : String
  maxOutputTokens : Nat
  verbosity : String
  format : Option (String × Bool)
  reasoningEffort : Option String
  reasoningSummary : Option String
  temperature : Option ℚ
deriving DecidableEq, Repr

/-- The validation and request-construction phase of
    `OpenAITextProvider.generate` (src/providers/text-provider.ts lines
    52-156): apply the destructuring defaults, run the three parameter-set
    checks in source order, and only when all pass construct the remote
    request.  A thrown `MCPError` is the `Except.error` carrying its
    message, which the `MCPError` constructor prefixes with the category. -/
def generateRequest (options : TextGenerateOptions) : Except String BuiltRequest :=
  let model := options.model.getD ("gpt-5.2")
  let reasoningEffort := options.reasoningEffort.getD ("none")
  let verbosity := options.verbosity.getD ("medium")
  let reasoningSummary := options.reasoningSummary.getD ("off")
  let maxOutputTokens := options.maxOutputTokens.getD 8192
  if model = ("gpt-5.2-pro") && !(isValidProReasoningEffort reasoningEffort) then
    Except.error (("VALIDATION_ERROR: gpt-5.2-pro only supports reasoning effort: medium, high, xhigh. Got: ") ++ reasoningEffort)
  else if options.temperature.isSome && reasoningEffort ≠ ("none") then
    Except.error ("VALIDATION_ERROR: Temperature is only allowed when reasoning_effort=\"none\". Either remove temperature or set reasoning_effort to \"none\".")
  else if options.jsonSchema.isSome && !(supportsStructuredOutput model) then
    Except.error (("VALIDATION_ERROR: Structured outputs (json_schema) are not supported by ") ++ model ++ (". Use gpt-5.2 or gpt-5.2-chat-latest."))
  else
    Except.ok
      ⟨(List.lookup model MODEL_IDS).getD model,
       options.systemPrompt,
       options.prompt,
       maxOutputTokens,
       verbosity,
       options.jsonSchema,
       (if reasoningEffort ≠ ("none") then some reasoningEffort else none),
       (if reasoningEffort ≠ ("none") && reasoningSummary ≠ ("off") then some reasoningSummary else none),
       (if reasoningEffort = ("none") then options.temperature else none)⟩

-- ============================================================================
-- Retry executor (src/retry.ts)
-- ============================================================================

/-- JavaScript `message.toLowerCase()` on the characters of a string. -/
def strToLower (s : String) : String :=
  String.mk (s.toList.map Char.toLower)

/-- `isRetryable` of src/retry.ts: some pattern of `retryableErrors` occurs
    in the failure message, case-insensitively. -/
def isRetryable (message : String) (retryableErrors : List String) : Bool :=
  retryableErrors.any
    (fun pattern => strIncludes (strToLower message) (strToLower pattern))

/-- The default `retryableErrors` list of src/retry.ts. -/
def DEFAULT_RETRYABLE_ERRORS : List String :=
  [("RATE_LIMIT"), ("429"), ("503"), ("502"), ("ECONNRESET"), ("ETIMEDOUT"),
   ("ENOTFOUND"), ("temporarily unavailable"), ("too many requests")]

/-- The `for (attempt = 0; attempt <= maxRetries; attempt++)` loop of
    `withRetry` (src/retry.ts).  `outcomes k` is what the wrapped operation
    does on its k-th invocation (0-based): a value or a thrown message.  The
    fuel argument is the number of loop iterations still permitted by the
    loop bound, `maxRetries + 1 - attempt`; when it runs out the loop exits
    and the trailing `throw lastError` of the source runs.  Returns the
    propagated result and the number of times the operation was invoked. -/
def retryLoop (outcomes : Nat → Except String α) (retryableErrors : List String)
    (maxRetries : Nat) : Nat → Nat → Option String → Except String α × Nat
  | 0, attempt, lastError => (Except.error (lastError.getD ("")), attempt)
  | fuel + 1, attempt, _ =>
      match outcomes attempt with
      | Except.ok v => (Except.ok v, attempt + 1)
      | Except.error e =>
          if attempt = maxRetries || !(isRetryable e retryableErrors) then
            (Except.error e, attempt + 1)
          else
            retryLoop outcomes retryableErrors maxRetries fuel (attempt + 1) (some e)

/-- `withRetry` of src/retry.ts, with the per-call `maxRetries` and
    `retryableErrors` options.  Returns the result and the number of
    attempts made. -/
def withRetry (outcomes : Nat → Except String α) (retryableErrors : List String)
    (maxRetries : Nat) : Except String α × Nat :=
  retryLoop outcomes retryableErrors maxRetries (maxRetries + 1) 0 none

-- ============================================================================
-- Deep research controller (src/providers/deep-research-provider.ts)
-- ============================================================================

/-- The `usage` object of a retrieved response (`input_tokens` /
    `output_tokens`, either possibly absent). -/
structure RawUsage where
  input_tokens : Option Nat
  output_tokens : Option Nat
deriving DecidableEq, Repr

/-- The usage record the provider builds from a retrieved response's raw
    usage (promptTokens / completionTokens / totalTokens). -/
structure UsageOut where
  promptTokens : Option Nat
  completionTokens : Option Nat
  totalTokens : Nat
deriving DecidableEq, Repr

/-- The usage conversion inside `pollForCompletion`:
    `input_tokens`/`output_tokens` carried over, `totalTokens` their sum
    with absent counts as 0. -/
def convertUsage (r : RawUsage) : UsageOut :=
  ⟨r.input_tokens, r.output_tokens, r.input_tokens.getD 0 + r.output_tokens.getD 0⟩

/-- What one `client.responses.retrieve` call does during the poll loop:
    either it returns a response (status string, `output_text` with the
    empty string for an absent text, optional usage, optional
    `error.message`), or the call itself throws with some message. -/
inductive PollStep where
  | retrieved (status : String) (output_text : String)
      (usage : Option RawUsage) (errMsg : Option String)
  | threw (msg : String)
deriving DecidableEq, Repr

/-- Remote operations the controller can perform against the job: the
    vocabulary has both a status retrieval and a job cancellation, so that
    "the remote job is never cancelled" is expressible. -/
inductive RemoteAction where
  | retrieveAct (responseId : String)
  | cancelAct (responseId : String)
deriving DecidableEq, Repr

/-- Outcome of the poll loop: a successful completion, a thrown error
    message, or `pending` when the supplied poll outcomes are exhausted
    while the loop would keep polling. -/
inductive PollResult where
  | success (text : String) (usage : Option UsageOut)
  | failure (msg : String)
  | pending
deriving DecidableEq, Repr

/-- `Math.round(elapsedMs / 1000 / 60)` on a non-negative integer number of
    milliseconds: round half up to whole minutes. -/
def jsRoundMinutes (elapsedMs : Nat) : Nat :=
  (2 * elapsedMs + 60000) / 120000

/-- The message of the TIMEOUT error thrown by `pollForCompletion`. -/
def timeoutMessage (elapsedMs : Nat) (responseId : String) : String :=
  ("TIMEOUT: Research timed out after ") ++ toString (jsRoundMinutes elapsedMs) ++
    (" minutes. The research may still be running - response ID: ") ++ responseId

/-- `pollForCompletion` of src/providers/deep-research-provider.ts.  `k` is
    the number of completed loop iterations, so `elapsed = k * pollIntervalMs`
    (the code sleeps `pollIntervalMs` between polls and recomputes the
    elapsed time when the loop re-enters).  Each list element is what the
    retrieval of that iteration does; the returned trace records every
    remote call the loop performed.  The errors thrown inside the `try`
    (empty completed output, failed status) carry the `API_ERROR:` /
    `RESEARCH_FAILED:` prefixes the `catch` re-throws, so they propagate
    directly; a caught error without one of the three recognized prefixes is
    logged and the loop continues after the same poll interval. -/
def pollForCompletion (responseId : String) (timeoutMs pollIntervalMs : Nat) :
    Nat → List PollStep → PollResult × List RemoteAction
  | k, [] =>
    if k * pollIntervalMs > timeoutMs then
      (PollResult.failure (timeoutMessage (k * pollIntervalMs) responseId), [])
    else
      (PollResult.pending, [])
  | k, step :: rest =>
    if k * pollIntervalMs > timeoutMs then
      (PollResult.failure (timeoutMessage (k * pollIntervalMs) responseId), [])
    else
      match step with
      | PollStep.retrieved status text usage errMsg =>
          if status = ("completed") then
            if text = ("") then
              (PollResult.failure ("API_ERROR: Research completed but no output text found"),
               [RemoteAction.retrieveAct responseId])
            else
              (PollResult.success text (usage.map convertUsage),
               [RemoteAction.retrieveAct responseId])
          else if status = ("failed") then
            (PollResult.failure (("RESEARCH_FAILED: ") ++
               errMsg.getD ("Research failed with unknown error")),
             [RemoteAction.retrieveAct responseId])
          else
            let r := pollForCompletion responseId timeoutMs pollIntervalMs (k + 1) rest
            (r.1, RemoteAction.retrieveAct responseId :: r.2)
      | PollStep.threw msg =>
          if strStartsWith msg ("TIMEOUT:") || strStartsWith msg ("RESEARCH_FAILED:") ||
              strStartsWith msg ("API_ERROR:") then
            (PollResult.failure msg, [RemoteAction.retrieveAct responseId])
          else
            let r := pollForCompletion responseId timeoutMs pollIntervalMs (k + 1) rest
            (r.1, RemoteAction.retrieveAct responseId :: r.2)

/-- What `research` returns to its caller (the fields of
    `DeepResearchResult` this model tracks). -/
structure DeepResearchRes where
  text : String
  model : String
  responseId : String
  usage : Option UsageOut
  cost : CostInfo
deriving DecidableEq, Repr

/-- Terminal behaviour of one `research` invocation: a returned result, a
    thrown error message, or `pending` when the supplied poll outcomes ran
    out first. -/
inductive ResearchOutcome where
  | success (res : DeepResearchRes)
  | thrown (msg : String)
  | pending
deriving DecidableEq, Repr

/-- `OpenAIDeepResearchProvider.research`
    (src/providers/deep-research-provider.ts lines 48-120).
    `startOutcome` is what `startResearch` does (a response identifier, or a
    thrown classified message); `steps` drives the poll loop; `now` stands
    for `new Date().toISOString()`.  Returns the outcome together with the
    list of `costTracker.trackCost` calls the invocation performed: a thrown
    error from `startResearch` or `pollForCompletion` propagates out of
    `research` before the cost-tracking statement runs, so only the success
    path appends a ledger entry, with `estimated` forced true when the
    completed response carried no usage data. -/
def research (model : String) (timeoutMs pollIntervalMs : Nat) (now : String)
    (startOutcome : Except String String) (steps : List PollStep) :
    ResearchOutcome × List CostEntry :=
  match startOutcome with
  | Except.error msg => (ResearchOutcome.thrown msg, [])
  | Except.ok responseId =>
      match pollForCompletion responseId timeoutMs pollIntervalMs 0 steps with
      | (PollResult.failure msg, _) => (ResearchOutcome.thrown msg, [])
      | (PollResult.pending, _) => (ResearchOutcome.pending, [])
      | (PollResult.success text usage, _) =>
          let cost := calculateCost model
            ((usage.bind UsageOut.promptTokens).getD 0)
            ((usage.bind UsageOut.completionTokens).getD 0)
          let entry : CostEntry :=
            ⟨now, model, ("deep_research"), cost.inputCost, cost.outputCost,
             cost.totalCost, cost.estimated || usage.isNone,
             usage.bind UsageOut.promptTokens,
             usage.bind UsageOut.completionTokens⟩
          (ResearchOutcome.success ⟨text, model, responseId, usage, cost⟩,
           [entry])

-- ============================================================================
-- Status check (checkResearch) — modelled from the spec
-- ============================================================================

/-- A retrieved remote response as the status check sees it. -/
structure RemoteResponse where
  status : String
  output_text : String
  usage : Option RawUsage
  errMsg : Option String
deriving DecidableEq, Repr

/-- The state the status check reports for a job. -/
inductive JobStateReport where
  | inProgressReport
  | completedReport (text : String) (usage : Option UsageOut)
  | failedReport (msg : String)
deriving DecidableEq, Repr

/-- Mapping of a retrieved response to the reported job state: `completed`
    carries output text and optional usage, `failed` carries the remote
    message, and anything else (including `in_progress` and unrecognized
    statuses) is reported as still in progress. -/
def classifyRemoteResponse (r : RemoteResponse) : JobStateReport :=
  if r.status = ("completed") then
    JobStateReport.completedReport r.output_text (r.usage.map convertUsage)
  else if r.status = ("failed") then
    JobStateReport.failedReport (r.errMsg.getD ("Research failed with unknown error"))
  else
    JobStateReport.inProgressReport

/-- Modelled from the spec: the implementation of
    `OpenAIDeepResearchProvider.checkResearch` is not under src/ (only its
    caller, the `check_research` handler of src/index.ts, is).  Per spec
    section 4.5 item 4 it is a stateless status check that performs exactly
    one retrieval — no polling loop — and reports the current state for all
    three job states, not only terminal ones.  `retrieve` is the remote
    `retrieveResponse` oracle; the returned trace records the remote calls
    made. -/
def checkResearch (responseId : String) (retrieve : String → RemoteResponse) :
    JobStateReport × List RemoteAction :=
  (classifyRemoteResponse (retrieve responseId),
   [RemoteAction.retrieveAct responseId])

-- ============================================================================
-- Claims
-- ============================================================================

/-- Claim C6: text-generation parameter validation rejects, with a
    VALIDATION_ERROR raised before any remote request is constructed, the
    shapes (gpt-5.2-pro, reasoningEffort none), (reasoningEffort low,
    temperature 0.7) and (a model without structured-output support with a
    jsonSchema present), while (gpt-5.2-pro, reasoningEffort high) and
    (reasoningEffort none, temperature 0.7) pass validation and a request is
    built. -/
theorem claimC6 :
    generateRequest ⟨("p"), none, some ("gpt-5.2-pro"), some ("none"), none,
        none, none, none, none⟩ =
      Except.error ("VALIDATION_ERROR: gpt-5.2-pro only supports reasoning effort: medium, high, xhigh. Got: none") ∧
    generateRequest ⟨("p"), none, none, some ("low"), none, none, none,
        some (7/10), none⟩ =
      Except.error ("VALIDATION_ERROR: Temperature is only allowed when reasoning_effort=\"none\". Either remove temperature or set reasoning_effort to \"none\".") ∧
    generateRequest ⟨("p"), none, some ("gpt-5.2-pro"), some ("high"), none,
        none, none, none, some (("s"), true)⟩ =
      Except.error ("VALIDATION_ERROR: Structured outputs (json_schema) are not supported by gpt-5.2-pro. Use gpt-5.2 or gpt-5.2-chat-latest.") ∧
    (generateRequest ⟨("p"), none, some ("gpt-5.2-pro"), some ("high"), none,
        none, none, none, none⟩).isOk = true ∧
    (generateRequest ⟨("p"), none, none, some ("none"), none, none, none,
        some (7/10), none⟩).isOk = true :=
  ⟨rfl, rfl, rfl, rfl, rfl⟩

/-- Claim C7: the error classifier is a pure, order-sensitive first-match
    function over the rule list authentication → AUTH_ERROR, rate/quota →
    RATE_LIMIT, safety/moderation → SAFETY_BLOCK, generic content policy →
    CONTENT_BLOCKED, deadline exceeded → TIMEOUT, with API_ERROR as the
    default when no rule matches. -/
theorem claimC7 (e : RawFailure) : (categorizeError e).1 = firstMatchCategory e := by
  unfold categorizeError firstMatchCategory classifierRules
  simp only [List.find?]
  rcases h1 : authSignal e <;> rcases h2 : rateSignal e <;>
    rcases h3 : safetySignal e <;> rcases h4 : contentSignal e <;>
    rcases h5 : timeoutSignal e <;> simp [h1, h2, h3, h4, h5]

/-- Claim C7 witness: the theorem applied to a concrete failure, whose
    classification evaluates to AUTH_ERROR on both sides. -/
theorem claimC7_witness :
    (categorizeError ⟨("bad API key"), none⟩).1 = firstMatchCategory ⟨("bad API key"), none⟩ ∧
    firstMatchCategory ⟨("bad API key"), none⟩ = ErrorCategory.AUTH_ERROR :=
  ⟨claimC7 ⟨("bad API key"), none⟩, by decide⟩

/-- Claim C8: a model identifier absent from the static price table yields
    estimated == true and costs computed from the DEFAULT_PRICING fallback;
    that fallback equals the gpt-5.2-pro table entry (21 USD per 1M input
    tokens, 168 USD per 1M output tokens), and no table entry exceeds it in
    either component. -/
theorem claimC8 :
    (∀ model promptTokens completionTokens,
      List.lookup model OPENAI_PRICING = none →
        (calculateCost model promptTokens completionTokens).estimated = true ∧
        (calculateCost model promptTokens completionTokens).inputCost =
          roundToMicro (((promptTokens : ℚ) / 1000000) * DEFAULT_PRICING.input) ∧
        (calculateCost model promptTokens completionTokens).outputCost =
          roundToMicro (((completionTokens : ℚ) / 1000000) * DEFAULT_PRICING.output)) ∧
    DEFAULT_PRICING = ⟨21, 168⟩ ∧
    List.lookup ("gpt-5.2-pro") OPENAI_PRICING = some DEFAULT_PRICING ∧
    (∀ p ∈ OPENAI_PRICING,
      p.2.input ≤ DEFAULT_PRICING.input ∧ p.2.output ≤ DEFAULT_PRICING.output) := by
  refine ⟨?_, ?_, ?_, ?_⟩
  · intro model promptTokens completionTokens h
    refine ⟨?_, ?_, ?_⟩ <;> simp [calculateCost, h]
  · show (⟨21.0, 168.0⟩ : TokenPricing) = ⟨21, 168⟩
    norm_num
  · rfl
  · intro p hp
    simp only [OPENAI_PRICING, List.mem_cons, List.not_mem_nil, or_false] at hp
    rcases hp with h | h | h | h | h <;> subst h <;> constructor <;>
      simp [DEFAULT_PRICING] <;> norm_num

/-- Claim C8 witness: a model outside the table, with the theorem's
    conclusions evaluated there. -/
theorem claimC8_witness :
    List.lookup ("gpt-4o") OPENAI_PRICING = none ∧
    (calculateCost ("gpt-4o") 500 200).estimated = true ∧
    (calculateCost ("gpt-4o") 500 200).inputCost =
      roundToMicro (((500 : ℚ) / 1000000) * DEFAULT_PRICING.input) :=
  ⟨by decide, (claimC8.1 ("gpt-4o") 500 200 (by decide)).1,
   (claimC8.1 ("gpt-4o") 500 200 (by decide)).2.1⟩

/-- Claim C10: reset empties only the in-memory entry list — the summary
    afterwards has callCount 0 and totalCost 0 — and the durable cost log
    file is left exactly as it was. -/
theorem claimC10 (s : CostTracker) :
    (CostTracker.reset s).entries = [] ∧
    (CostTracker.getSummary (CostTracker.reset s)).callCount = 0 ∧
    (CostTracker.getSummary (CostTracker.reset s)).totalCost = 0 ∧
    (CostTracker.reset s).costsFile = s.costsFile := by
  refine ⟨rfl, rfl, ?_, rfl⟩
  simp [CostTracker.getSummary, CostTracker.reset, roundToMicro]

/-- Claim C5: with maxRetries = 2, an operation failing every time with a
    retryable failure is invoked exactly 3 times and the last failure
    propagates; an operation whose first failure is non-retryable is invoked
    exactly once and that failure propagates. -/
theorem claimC5 {α : Type} (outcomes : Nat → Except String α)
    (retryableErrors : List String) :
    (∀ e0 e1 e2,
      outcomes 0 = Except.error e0 → outcomes 1 = Except.error e1 →
      outcomes 2 = Except.error e2 →
      isRetryable e0 retryableErrors = true →
      isRetryable e1 retryableErrors = true →
      withRetry outcomes retryableErrors 2 = (Except.error e2, 3)) ∧
    (∀ e0, outcomes 0 = Except.error e0 →
      isRetryable e0 retryableErrors = false →
      withRetry outcomes retryableErrors 2 = (Except.error e0, 1)) := by
  constructor
  · intro e0 e1 e2 h0 h1 h2 r0 r1
    simp [withRetry, retryLoop, h0, h1, h2, r0, r1]
  · intro e0 h0 r0
    simp [withRetry, retryLoop, h0, r0]

/-- Claim C5 witness: with the default retryable patterns, an operation that
    always throws a rate-limit failure runs 3 times; one that throws a
    validation failure runs once. -/
theorem claimC5_witness :
    withRetry (fun _ => (Except.error ("RATE_LIMIT hit") : Except String Nat))
        DEFAULT_RETRYABLE_ERRORS 2 = (Except.error ("RATE_LIMIT hit"), 3) ∧
    withRetry (fun _ => (Except.error ("VALIDATION_ERROR bad") : Except String Nat))
        DEFAULT_RETRYABLE_ERRORS 2 = (Except.error ("VALIDATION_ERROR bad"), 1) :=
  ⟨(claimC5 (fun _ => Except.error ("RATE_LIMIT hit")) DEFAULT_RETRYABLE_ERRORS).1
      ("RATE_LIMIT hit") ("RATE_LIMIT hit") ("RATE_LIMIT hit") rfl rfl rfl
      (by decide) (by decide),
   (claimC5 (fun _ => Except.error ("VALIDATION_ERROR bad")) DEFAULT_RETRYABLE_ERRORS).2
      ("VALIDATION_ERROR bad") rfl (by decide)⟩

/-- Claim C9: whenever the poll loop retrieves a response with status
    completed but empty output text (the code treats an absent text as the
    empty string), before the deadline, it raises the API_ERROR rather than
    returning success with empty text. -/
theorem claimC9 (responseId : String) (timeoutMs pollIntervalMs k : Nat)
    (usage : Option RawUsage) (errMsg : Option String) (rest : List PollStep)
    (h : k * pollIntervalMs ≤ timeoutMs) :
    (pollForCompletion responseId timeoutMs pollIntervalMs k
      (PollStep.retrieved ("completed") ("") usage errMsg :: rest)).1 =
    PollResult.failure ("API_ERROR: Research completed but no output text found") := by
  simp [pollForCompletion, Nat.not_lt.mpr h]

/-- Claim C9 witness: the theorem applied at a concrete poll state. -/
theorem claimC9_witness :
    (pollForCompletion ("resp_1") 100 10 0
      [PollStep.retrieved ("completed") ("") none none]).1 =
    PollResult.failure ("API_ERROR: Research completed but no output text found") :=
  claimC9 ("resp_1") 100 10 0 none none [] (by decide)

/-- Claim C3: (a) for polled states in_progress, in_progress, completed
    (with non-empty output) arriving before the overall timeout, the loop
    returns success after exactly 3 retrievals and no error; (b) a retrieval
    that throws a message not prefixed TIMEOUT:, RESEARCH_FAILED: or
    API_ERROR: does not terminate the loop — the run continues with the
    remaining poll outcomes after the same poll interval, with only the
    extra retrieval recorded. -/
theorem claimC3 :
    (∀ (responseId : String) (timeoutMs pollIntervalMs : Nat) (text : String)
       (usage : Option RawUsage) (errMsg : Option String) (rest : List PollStep),
       text ≠ ("") → 2 * pollIntervalMs ≤ timeoutMs →
       pollForCompletion responseId timeoutMs pollIntervalMs 0
         ([PollStep.retrieved ("in_progress") ("") none none,
           PollStep.retrieved ("in_progress") ("") none none,
           PollStep.retrieved ("completed") text usage errMsg] ++ rest) =
       (PollResult.success text (usage.map convertUsage),
        [RemoteAction.retrieveAct responseId, RemoteAction.retrieveAct responseId,
         RemoteAction.retrieveAct responseId])) ∧
    (∀ (responseId : String) (timeoutMs pollIntervalMs k : Nat) (msg : String)
       (rest : List PollStep),
       strStartsWith msg ("TIMEOUT:") = false →
       strStartsWith msg ("RESEARCH_FAILED:") = false →
       strStartsWith msg ("API_ERROR:") = false →
       k * pollIntervalMs ≤ timeoutMs →
       pollForCompletion responseId timeoutMs pollIntervalMs k
         (PollStep.threw msg :: rest) =
       ((pollForCompletion responseId timeoutMs pollIntervalMs (k + 1) rest).1,
        RemoteAction.retrieveAct responseId ::
          (pollForCompletion responseId timeoutMs pollIntervalMs (k + 1) rest).2)) := by
  constructor
  · intro responseId timeoutMs pollIntervalMs text usage errMsg rest htext hto
    have h0 : ¬ (0 * pollIntervalMs > timeoutMs) := by omega
    have h1 : ¬ (timeoutMs < pollIntervalMs) := by omega
    have h2 : ¬ (timeoutMs < 2 * pollIntervalMs) := by omega
    simp [pollForCompletion, h0, h1, h2, htext]
  · intro responseId timeoutMs pollIntervalMs k msg rest hs1 hs2 hs3 hto
    have h0 : ¬ (k * pollIntervalMs > timeoutMs) := by omega
    simp [pollForCompletion, h0, hs1, hs2, hs3]

/-- Claim C3 witness: the theorem applied at concrete runs, both sides
    evaluated. -/
theorem claimC3_witness :
    pollForCompletion ("resp_1") 100 10 0
      [PollStep.retrieved ("in_progress") ("") none none,
       PollStep.retrieved ("in_progress") ("") none none,
       PollStep.retrieved ("completed") ("report") none none] =
    (PollResult.success ("report") none,
     [RemoteAction.retrieveAct ("resp_1"), RemoteAction.retrieveAct ("resp_1"),
      RemoteAction.retrieveAct ("resp_1")]) ∧
    pollForCompletion ("resp_1") 100 10 0
      [PollStep.threw ("ECONNRESET"),
       PollStep.retrieved ("completed") ("report") none none] =
    ((pollForCompletion ("resp_1") 100 10 1
        [PollStep.retrieved ("completed") ("report") none none]).1,
     RemoteAction.retrieveAct ("resp_1") ::
       (pollForCompletion ("resp_1") 100 10 1
         [PollStep.retrieved ("completed") ("report") none none]).2) :=
  ⟨claimC3.1 ("resp_1") 100 10 ("report") none none [] (by decide) (by decide),
   claimC3.2 ("resp_1") 100 10 0 ("ECONNRESET") _ (by decide) (by decide)
     (by decide) (by decide)⟩

/-- The poll outcome of a job that is still running. -/
def inProgressStep : PollStep := PollStep.retrieved ("in_progress") ("") none none

/-- The TIMEOUT message splits into the fixed prefix, the elapsed-minutes
    middle and the response identifier at the end. -/
theorem timeoutMessage_shape (elapsedMs : Nat) (responseId : String) :
    timeoutMessage elapsedMs responseId =
      ("TIMEOUT: Research timed out after ") ++
        (toString (jsRoundMinutes elapsedMs) ++
          (" minutes. The research may still be running - response ID: ")) ++
        responseId := by
  rw [timeoutMessage, String.append_assoc ("TIMEOUT: Research timed out after ")
    (toString (jsRoundMinutes elapsedMs))
    (" minutes. The research may still be running - response ID: ")]

/-- A run over in-progress polls whose deadline passes before they are
    exhausted ends in the TIMEOUT failure carrying the response identifier,
    and never performs a cancellation. -/
theorem pollTimeoutAux (responseId : String) (timeoutMs pollIntervalMs : Nat) :
    ∀ (n k : Nat), (k + n) * pollIntervalMs > timeoutMs →
      (∃ s, (pollForCompletion responseId timeoutMs pollIntervalMs k
          (List.replicate n inProgressStep)).1 =
        PollResult.failure (("TIMEOUT: Research timed out after ") ++ s ++ responseId)) ∧
      (∀ id, RemoteAction.cancelAct id ∉
        (pollForCompletion responseId timeoutMs pollIntervalMs k
          (List.replicate n inProgressStep)).2) := by
  intro n
  induction n with
  | zero =>
      intro k h
      have h0 : k * pollIntervalMs > timeoutMs := by simpa using h
      constructor
      · refine ⟨toString (jsRoundMinutes (k * pollIntervalMs)) ++
          (" minutes. The research may still be running - response ID: "), ?_⟩
        simp [pollForCompletion, h0, timeoutMessage_shape]
      · intro id
        simp [pollForCompletion, h0]
  | succ m ih =>
      intro k h
      by_cases h0 : k * pollIntervalMs > timeoutMs
      · constructor
        · refine ⟨toString (jsRoundMinutes (k * pollIntervalMs)) ++
            (" minutes. The research may still be running - response ID: "), ?_⟩
          simp [List.replicate_succ, pollForCompletion, h0, timeoutMessage_shape]
        · intro id
          simp [List.replicate_succ, pollForCompletion, h0]
      · have ihk := ih (k + 1)
          (by rw [show k + 1 + m = k + (m + 1) by omega]; exact h)
        constructor
        · obtain ⟨s, hs⟩ := ihk.1
          refine ⟨s, ?_⟩
          simpa [List.replicate_succ, pollForCompletion, h0, inProgressStep] using hs
        · intro id
          have hm := ihk.2 id
          simp [List.replicate_succ, pollForCompletion, h0, inProgressStep]
          simpa using hm

/-- Claim C4: when the elapsed time exceeds the overall timeout while the
    job keeps reporting in_progress, the controller raises a TIMEOUT failure
    whose message ends with the original response identifier, and the run
    performs no cancellation of the remote job. -/
theorem claimC4 (responseId : String) (timeoutMs pollIntervalMs n : Nat)
    (h : n * pollIntervalMs > timeoutMs) :
    (∃ s, (pollForCompletion responseId timeoutMs pollIntervalMs 0
        (List.replicate n inProgressStep)).1 =
      PollResult.failure (("TIMEOUT: Research timed out after ") ++ s ++ responseId)) ∧
    (∀ id, RemoteAction.cancelAct id ∉
      (pollForCompletion responseId timeoutMs pollIntervalMs 0
        (List.replicate n inProgressStep)).2) :=
  pollTimeoutAux responseId timeoutMs pollIntervalMs n 0 (by simpa using h)

/-- Claim C4 witness: a concrete run with overall timeout 15ms and poll
    interval 10ms that times out on its third loop entry. -/
theorem claimC4_witness :
    2 * 10 > 15 ∧
    (∃ s, (pollForCompletion ("resp_1") 15 10 0
        (List.replicate 2 inProgressStep)).1 =
      PollResult.failure (("TIMEOUT: Research timed out after ") ++ s ++ ("resp_1"))) ∧
    (∀ id, RemoteAction.cancelAct id ∉
      (pollForCompletion ("resp_1") 15 10 0 (List.replicate 2 inProgressStep)).2) :=
  ⟨by decide, (claimC4 ("resp_1") 15 10 2 (by decide)).1,
   (claimC4 ("resp_1") 15 10 2 (by decide)).2⟩

/-- Claim C2 counterexample: a deep-research invocation whose job reports
    the failed status reaches the RESEARCH_FAILED terminal outcome, yet
    appends zero ledger records — not one — because the thrown error
    propagates out of the poll loop before the cost-tracking call runs. -/
theorem claimC2_counterexample :
    (research ("o3-deep-research") 1800000 10000 ("2026-01-01T00:00:00.000Z")
        (Except.ok ("resp_1"))
        [PollStep.retrieved ("failed") ("") none (some ("research crashed"))]).1 =
      ResearchOutcome.thrown ("RESEARCH_FAILED: research crashed") ∧
    (research ("o3-deep-research") 1800000 10000 ("2026-01-01T00:00:00.000Z")
        (Except.ok ("resp_1"))
        [PollStep.retrieved ("failed") ("") none (some ("research crashed"))]).2.length = 0 :=
  ⟨rfl, rfl⟩

/-- Claim C2 (amended): a deep-research invocation appends exactly one
    ledger record via the cost tracker when it returns success — its cost
    computed from whatever usage is available (zero tokens if none) and the
    estimated flag forced true when no usage was returned — while an
    invocation ending in a thrown failure (RESEARCH_FAILED, TIMEOUT, or a
    start failure) appends no ledger record at all. -/
theorem claimC2_amended (model : String) (timeoutMs pollIntervalMs : Nat)
    (now : String) (startOutcome : Except String String) (steps : List PollStep) :
    (∀ res, (research model timeoutMs pollIntervalMs now startOutcome steps).1 =
        ResearchOutcome.success res →
      res.cost = calculateCost model ((res.usage.bind UsageOut.promptTokens).getD 0)
          ((res.usage.bind UsageOut.completionTokens).getD 0) ∧
      (research model timeoutMs pollIntervalMs now startOutcome steps).2 =
        [⟨now, model, ("deep_research"), res.cost.inputCost, res.cost.outputCost,
          res.cost.totalCost, res.cost.estimated || res.usage.isNone,
          res.usage.bind UsageOut.promptTokens,
          res.usage.bind UsageOut.completionTokens⟩]) ∧
    (∀ msg, (research model timeoutMs pollIntervalMs now startOutcome steps).1 =
        ResearchOutcome.thrown msg →
      (research model timeoutMs pollIntervalMs now startOutcome steps).2 = []) := by
  rcases startOutcome with msg0 | responseId
  · constructor
    · intro res hres
      simp [research] at hres
    · intro msg hmsg
      simp [research]
  · rcases hp : pollForCompletion responseId timeoutMs pollIntervalMs 0 steps with ⟨pr, tr⟩
    rcases pr with ⟨text, usage⟩ | ⟨m⟩ | _
    · constructor
      · intro res hres
        simp only [research, hp] at hres ⊢
        obtain ⟨rt, rm, ri, ru, rc⟩ := res
        simp only [ResearchOutcome.success.injEq, DeepResearchRes.mk.injEq] at hres
        obtain ⟨h1, h2, h3, h4, h5⟩ := hres
        subst h1; subst h2; subst h3; subst h4; subst h5
        exact ⟨rfl, rfl⟩
      · intro msg hmsg
        simp [research, hp] at hmsg
    · constructor
      · intro res hres
        simp [research, hp] at hres
      · intro msg hmsg
        simp [research, hp]
    · constructor
      · intro res hres
        simp [research, hp] at hres
      · intro msg hmsg
        simp [research, hp] at hmsg

/-- Claim C2 witness: a successful run appends exactly one ledger record; a
    failed run appends none. -/
theorem claimC2_witness :
    (research ("o3-deep-research") 100 10 ("t0") (Except.ok ("resp_1"))
        [PollStep.retrieved ("completed") ("report") none none]).2.length = 1 ∧
    (research ("o3-deep-research") 100 10 ("t0") (Except.ok ("resp_1"))
        [PollStep.retrieved ("failed") ("") none none]).2 = [] := by
  constructor
  · have h := (claimC2_amended ("o3-deep-research") 100 10 ("t0")
      (Except.ok ("resp_1")) [PollStep.retrieved ("completed") ("report") none none]).1
      ⟨("report"), ("o3-deep-research"), ("resp_1"), none,
        calculateCost ("o3-deep-research") 0 0⟩ rfl
    rw [h.2]
    rfl
  · exact (claimC2_amended ("o3-deep-research") 100 10 ("t0")
      (Except.ok ("resp_1")) [PollStep.retrieved ("failed") ("") none none]).2
      ("RESEARCH_FAILED: Research failed with unknown error") rfl

/-- Claim C1: the status check performs exactly one retrieval for every job
    identifier — its remote trace is the single retrieval of that id — and
    reports the current state for all three job states: completed (with the
    output text and optional usage), failed (with the remote message), and
    anything else as still in progress. -/
theorem claimC1 (jobId : String) (retrieve : String → RemoteResponse) :
    (checkResearch jobId retrieve).2 = [RemoteAction.retrieveAct jobId] ∧
    ((retrieve jobId).status = ("completed") →
      (checkResearch jobId retrieve).1 =
        JobStateReport.completedReport (retrieve jobId).output_text
          ((retrieve jobId).usage.map convertUsage)) ∧
    ((retrieve jobId).status = ("failed") →
      (checkResearch jobId retrieve).1 =
        JobStateReport.failedReport
          ((retrieve jobId).errMsg.getD ("Research failed with unknown error"))) ∧
    ((retrieve jobId).status ≠ ("completed") →
     (retrieve jobId).status ≠ ("failed") →
      (checkResearch jobId retrieve).1 = JobStateReport.inProgressReport) := by
  refine ⟨rfl, ?_, ?_, ?_⟩
  · intro h
    simp [checkResearch, classifyRemoteResponse, h]
  · intro h
    simp [checkResearch, classifyRemoteResponse, h]
  · intro h1 h2
    simp [checkResearch, classifyRemoteResponse, h1, h2]

/-- Claim C1 witness: a job that is still running is reported as in
    progress after exactly one retrieval. -/
theorem claimC1_witness :
    (checkResearch ("resp_1") (fun _ => ⟨("in_progress"), (""), none, none⟩)).2 =
      [RemoteAction.retrieveAct ("resp_1")] ∧
    (checkResearch ("resp_1") (fun _ => ⟨("in_progress"), (""), none, none⟩)).1 =
      JobStateReport.inProgressReport :=
  ⟨(claimC1 ("resp_1") (fun _ => ⟨("in_progress"), (""), none, none⟩)).1,
   (claimC1 ("resp_1") (fun _ => ⟨("in_progress"), (""), none, none⟩)).2.2.2
     (by decide) (by decide)⟩
